import Mathlib

/-!
Shallow embedding of the `EditTableForm` component and the
`SystemEnvironmentVariableSettings` component from
`src/dashboard/src/components/dataBrowser/EditTableForm/EditTableForm.tsx`,
together with proofs about the spec's claims.

The embedding models:
* the merged error slot `error = columnsError || updateError || foreignKeyError`
  and the `resetError` handler;
* the one-time hydration effect guarded by the `formInitialized` latch;
* the `handleSubmit` orchestration as a pure function from the outcomes of the
  external collaborators (update mutation, foreign-key tracking mutation,
  completion callback, router) to the trace of invoked effects;
* the secret-visibility toggles of the settings panel.

JavaScript-specific behaviours are embedded explicitly: `a || b` on nullable
error objects becomes `jsOr` on `Option`, `Array.prototype.findIndex` (which
returns `-1` on no match) becomes `jsFindIndex : ... → Int`, and the
optional-chaining access `values.columns[idx]?.name` becomes `List.get?`
followed by `Option.map`.
-/

namespace EditTableForm

/-- A normalized column as produced by `normalizeDatabaseColumn` and consumed
by the hydration effect (`dataGridColumns`). -/
structure NormalizedColumn where
  id : String
  type : String
  defaultValue : Option String
  isNullable : Bool
  isUnique : Bool
  isPrimary : Bool
  isIdentity : Bool
deriving Repr, DecidableEq

/-- A column entry of the form values, as produced by the hydration
`form.reset` call and edited by the user. -/
structure FormColumn where
  id : String
  name : String
  type : String
  defaultValue : Option String
  isNullable : Bool
  isUnique : Bool
deriving Repr, DecidableEq

/-- A foreign-key relation: a reference from a column to a target
schema/table/column. -/
structure ForeignKeyRelation where
  columnName : String
  referencedSchema : String
  referencedTable : String
  referencedColumn : String
deriving Repr, DecidableEq

/-- The form values (`BaseTableFormValues`): name, ordered column list, the
nullable primary-key and identity-column indices, and the foreign-key
relations. -/
structure BaseTableFormValues where
  name : String
  columns : List FormColumn
  primaryKeyIndex : Option Nat
  identityColumnIndex : Option Nat
  foreignKeyRelations : List ForeignKeyRelation
deriving Repr, DecidableEq

/-- The `DatabaseTable` payload built in `handleSubmit`: the form values plus
the derived `primaryKey` and `identityColumn` column names. -/
structure DatabaseTable where
  name : String
  columns : List FormColumn
  primaryKeyIndex : Option Nat
  identityColumnIndex : Option Nat
  foreignKeyRelations : List ForeignKeyRelation
  primaryKey : Option String
  identityColumn : Option String
deriving Repr, DecidableEq

/-- JavaScript `a || b` on nullable error objects: the first operand when it
is non-null, otherwise the second. -/
def jsOr (a b : Option String) : Option String :=
  match a with
  | some x => some x
  | none => b

/-- The three error sources of the component: the metadata-load error
(`columnsError` from `useTableQuery`), the update-mutation error
(`updateError` from `useUpdateTableMutation`) and the foreign-key-tracking
error (`foreignKeyError` from `useTrackForeignKeyRelationsMutation`). -/
structure ErrorSources where
  columnsError : Option String
  updateError : Option String
  foreignKeyError : Option String
deriving Repr, DecidableEq

/-- The merged error slot:
`const error = columnsError || updateError || foreignKeyError;`. -/
def mergedError (s : ErrorSources) : Option String :=
  jsOr s.columnsError (jsOr s.updateError s.foreignKeyError)

/-- The `resetError` click handler: it calls `resetForeignKeyError()` and
`resetUpdateError()`; nothing resets `columnsError`. -/
def resetError (s : ErrorSources) : ErrorSources :=
  { s with foreignKeyError := none, updateError := none }

/-- The status of the `useTableQuery` metadata load. -/
inductive QueryStatus where
  | loading
  | success
  | error
deriving Repr, DecidableEq

/-- JavaScript `Array.prototype.findIndex`: the index of the first element
satisfying the predicate, or `-1` when there is none. -/
def jsFindIndex (p : α → Bool) : List α → Int
  | [] => -1
  | x :: xs =>
    if p x then 0
    else if jsFindIndex p xs = -1 then -1 else jsFindIndex p xs + 1

/-- The column entry written into the form by the hydration `form.reset` call:
both `id` and `name` are set from `column.id`. -/
def toFormColumn (c : NormalizedColumn) : FormColumn :=
  { id := c.id
    name := c.id
    type := c.type
    defaultValue := c.defaultValue
    isNullable := c.isNullable
    isUnique := c.isUnique }

/-- The form values written by the hydration effect's `form.reset` call:
`findIndex` results above `-1` become indices, `-1` becomes `null`. -/
def hydratedFormValues (originalTableName : String)
    (dataGridColumns : List NormalizedColumn)
    (foreignKeyRelations : List ForeignKeyRelation) : BaseTableFormValues :=
  let primaryColumnIndex := jsFindIndex (fun c => c.isPrimary) dataGridColumns
  let identityColumnIndex := jsFindIndex (fun c => c.isIdentity) dataGridColumns
  { name := originalTableName
    columns := dataGridColumns.map toFormColumn
    primaryKeyIndex :=
      if primaryColumnIndex > -1 then some primaryColumnIndex.toNat else none
    identityColumnIndex :=
      if identityColumnIndex > -1 then some identityColumnIndex.toNat else none
    foreignKeyRelations := foreignKeyRelations }

/-- The component state touched by the hydration effect: the current form
values and the `formInitialized` latch. -/
structure FormState where
  values : BaseTableFormValues
  formInitialized : Bool
deriving Repr, DecidableEq

/-- One run of the hydration `useEffect`: when the metadata load succeeded,
the normalized column list is non-empty and the latch is unset, reset the
form to the hydrated values and set the latch; otherwise do nothing. -/
def hydrationEffect (columnsStatus : QueryStatus) (originalTableName : String)
    (dataGridColumns : List NormalizedColumn)
    (foreignKeyRelations : List ForeignKeyRelation)
    (st : FormState) : FormState :=
  if columnsStatus = QueryStatus.success ∧ dataGridColumns.length > 0 ∧
      st.formInitialized = false then
    { values := hydratedFormValues originalTableName dataGridColumns foreignKeyRelations
      formInitialized := true }
  else st

/-- The `DatabaseTable` built at the top of `handleSubmit`:
`primaryKey` is `values.columns[values.primaryKeyIndex]?.name` (a `null`
index reads `columns[null]`, which is `undefined`, so the chain yields
`undefined`), and `identityColumn` is guarded by an explicit
null/undefined check on the index before the same access. -/
def mkUpdatedTable (values : BaseTableFormValues) : DatabaseTable :=
  { name := values.name
    columns := values.columns
    primaryKeyIndex := values.primaryKeyIndex
    identityColumnIndex := values.identityColumnIndex
    foreignKeyRelations := values.foreignKeyRelations
    primaryKey :=
      match values.primaryKeyIndex with
      | none => none
      | some i => (values.columns[i]?).map FormColumn.name
    identityColumn :=
      match values.identityColumnIndex with
      | none => none
      | some i => (values.columns[i]?).map FormColumn.name }

/-- Outcome of one external call awaited by `handleSubmit`. -/
inductive CallResult where
  | ok
  | err
deriving Repr, DecidableEq

/-- The outcomes of the external collaborators for one run of
`handleSubmit`: whether each awaited call resolves or rejects, and whether
the caller supplied an `onSubmit` callback. -/
structure SubmitEnv where
  updateResult : CallResult
  trackResult : CallResult
  onSubmitProvided : Bool
  onSubmitResult : CallResult
  routerPushResult : CallResult
deriving Repr, DecidableEq

/-- The router query parameters used to build the navigation path. -/
structure RouterQuery where
  workspaceSlug : String
  appSlug : String
  dataSourceSlug : String
deriving Repr, DecidableEq

/-- The navigation target template string of `router.push`. -/
def navPath (q : RouterQuery) (schema tableName : String) : String :=
  "/" ++ q.workspaceSlug ++ "/" ++ q.appSlug ++ "/database/browser/" ++
    q.dataSourceSlug ++ "/" ++ schema ++ "/" ++ tableName

/-- An observable effect performed by `handleSubmit`. -/
inductive SubmitEvent where
  | updateTableCall (originalTableName : String)
      (originalColumns : List NormalizedColumn)
      (originalForeignKeyRelations : List ForeignKeyRelation)
      (updatedTable : DatabaseTable)
  | trackForeignKeysCall (foreignKeyRelations : List ForeignKeyRelation)
      (schema : String) (table : String)
  | onSubmitCall
  | routerPush (path : String)
  | toast (message : String)
deriving Repr, DecidableEq

/-- The success toast message. -/
def toastMessage : String := "The table has been updated successfully."

/-- Step 3 of the orchestration: the foreign-key-tracking call is made only
when the updated table's relation list is non-empty, with the relations, the
schema and the updated table's name. -/
def trackStep (env : SubmitEnv) (schema : String) (updatedTable : DatabaseTable) :
    List SubmitEvent × CallResult :=
  if updatedTable.foreignKeyRelations.length > 0 then
    ([SubmitEvent.trackForeignKeysCall updatedTable.foreignKeyRelations schema
        updatedTable.name],
     env.trackResult)
  else ([], CallResult.ok)

/-- Step 4: the completion callback is awaited only when provided. -/
def onSubmitStep (env : SubmitEnv) : List SubmitEvent × CallResult :=
  if env.onSubmitProvided then ([SubmitEvent.onSubmitCall], env.onSubmitResult)
  else ([], CallResult.ok)

/-- Step 5: `router.push` is awaited only when the table name changed. -/
def navigateStep (env : SubmitEnv) (q : RouterQuery)
    (schema originalTableName : String) (updatedTable : DatabaseTable) :
    List SubmitEvent × CallResult :=
  if originalTableName ≠ updatedTable.name then
    ([SubmitEvent.routerPush (navPath q schema updatedTable.name)],
     env.routerPushResult)
  else ([], CallResult.ok)

/-- The events after a successful `updateTable` await: each later awaited
call that rejects throws, aborting the rest of the `try` block. -/
def afterUpdate (env : SubmitEnv) (q : RouterQuery)
    (schema originalTableName : String) (updatedTable : DatabaseTable) :
    List SubmitEvent :=
  match trackStep env schema updatedTable with
  | (ev1, CallResult.err) => ev1
  | (ev1, CallResult.ok) =>
    match onSubmitStep env with
    | (ev2, CallResult.err) => ev1 ++ ev2
    | (ev2, CallResult.ok) =>
      match navigateStep env q schema originalTableName updatedTable with
      | (ev3, CallResult.err) => ev1 ++ ev2 ++ ev3
      | (ev3, CallResult.ok) => ev1 ++ ev2 ++ ev3 ++ [SubmitEvent.toast toastMessage]

/-- One run of `handleSubmit`: the trace of external effects. The whole body
is wrapped in `try { ... } catch \x7b\x7d`, so a rejection of any awaited call
ends the trace there and the handler returns normally — the embedding
returns the trace for every environment, with no error outcome. -/
def handleSubmit (env : SubmitEnv) (q : RouterQuery) (schema : String)
    (originalTableName : String) (originalColumns : List NormalizedColumn)
    (originalForeignKeyRelations : List ForeignKeyRelation)
    (values : BaseTableFormValues) : List SubmitEvent :=
  let updatedTable := mkUpdatedTable values
  SubmitEvent.updateTableCall originalTableName originalColumns
      originalForeignKeyRelations updatedTable ::
    match env.updateResult with
    | CallResult.err => []
    | CallResult.ok => afterUpdate env q schema originalTableName updatedTable

/-- Whether an event is a foreign-key-tracking call. -/
def isTrackCall : SubmitEvent → Bool
  | SubmitEvent.trackForeignKeysCall .. => true
  | _ => false

/-- Whether an event is a router navigation. -/
def isRouterPush : SubmitEvent → Bool
  | SubmitEvent.routerPush _ => true
  | _ => false

/-- Whether an event is the success toast. -/
def isToast : SubmitEvent → Bool
  | SubmitEvent.toast _ => true
  | _ => false

/-- Whether an event is the completion-callback invocation. -/
def isOnSubmitCall : SubmitEvent → Bool
  | SubmitEvent.onSubmitCall => true
  | _ => false

end EditTableForm

namespace SystemEnvironmentVariableSettings

/-- The two independent visibility flags of the settings panel. -/
structure SecretVisibilityState where
  showAdminSecret : Bool
  showWebhookSecret : Bool
deriving Repr, DecidableEq

/-- `onClick={() => setShowAdminSecret((show) => !show)}`. -/
def toggleAdminSecret (s : SecretVisibilityState) : SecretVisibilityState :=
  { s with showAdminSecret := !s.showAdminSecret }

/-- `onClick={() => setShowWebhookSecret((show) => !show)}`. -/
def toggleWebhookSecret (s : SecretVisibilityState) : SecretVisibilityState :=
  { s with showWebhookSecret := !s.showWebhookSecret }

/-- The masked placeholder rendered when a secret is hidden. -/
def maskedDots : String := "●●●●●●●●●●●●●●●●●●●●●●●●●●●●●●●"

/-- The text rendered for the admin secret row: the already-fetched value when
the flag is set, the mask otherwise. -/
def adminSecretText (s : SecretVisibilityState) (adminSecret : String) : String :=
  if s.showAdminSecret then adminSecret else maskedDots

/-- The text rendered for the webhook secret row. -/
def webhookSecretText (s : SecretVisibilityState) (webhookSecret : String) : String :=
  if s.showWebhookSecret then webhookSecret else maskedDots

end SystemEnvironmentVariableSettings

namespace EditTableForm

/-- C1 counterexample: the claim that `resetError` resets all three error
sources — so that the merged error slot is null afterwards regardless of
which source was non-null — is false when the metadata-load error is the
non-null source: `resetError` does not reset `columnsError`, so the merged
slot stays non-null. -/
theorem resetError_leaves_columns_error_cex :
    ¬ (mergedError (resetError
        { columnsError := some "failed to load columns"
          updateError := none
          foreignKeyError := none }) = none) := by
  simp [mergedError, resetError, jsOr]

/-- C1 (amended): `resetError` resets the update-mutation error and the
foreign-key-tracking error simultaneously, but not the metadata-load error;
after clearing, the merged error slot equals the metadata-load error, hence
is null exactly when the metadata-load error is null. -/
theorem resetError_clears_mutation_errors_only (s : ErrorSources) :
    (resetError s).updateError = none ∧
    (resetError s).foreignKeyError = none ∧
    (resetError s).columnsError = s.columnsError ∧
    mergedError (resetError s) = s.columnsError := by
  refine ⟨rfl, rfl, rfl, ?_⟩
  cases h : s.columnsError <;> simp [mergedError, resetError, jsOr, h]

/-- C7: the merged error slot equals the first non-null of, in order, the
metadata-load error, the update-mutation error and the foreign-key-tracking
error. -/
theorem mergedError_first_non_null (s : ErrorSources) :
    mergedError s =
      if s.columnsError ≠ none then s.columnsError
      else if s.updateError ≠ none then s.updateError
      else s.foreignKeyError := by
  cases hc : s.columnsError <;> cases hu : s.updateError <;>
    simp [mergedError, jsOr, hc, hu]

/-- C3: once the `formInitialized` latch is set, every run of the hydration
effect — whatever the load status, column list and relations, including a
second successful load — leaves the component state (in particular the form
values) unchanged. -/
theorem hydration_latch_prevents_rehydration (cs : QueryStatus) (nm : String)
    (cols : List NormalizedColumn) (fks : List ForeignKeyRelation)
    (st : FormState) (h : st.formInitialized = true) :
    hydrationEffect cs nm cols fks st = st := by
  simp [hydrationEffect, h]

/-- Witness for C3: a second successful load with a non-empty column list,
after the latch is set, leaves in-progress edits untouched. -/
theorem hydration_latch_prevents_rehydration_witness :
    hydrationEffect QueryStatus.success "users"
      [{ id := "id", type := "int4", defaultValue := none, isNullable := false,
         isUnique := true, isPrimary := true, isIdentity := true }] []
      { values :=
          { name := "users_edited", columns := [], primaryKeyIndex := none,
            identityColumnIndex := none, foreignKeyRelations := [] }
        formInitialized := true } =
      { values :=
          { name := "users_edited", columns := [], primaryKeyIndex := none,
            identityColumnIndex := none, foreignKeyRelations := [] }
        formInitialized := true } :=
  hydration_latch_prevents_rehydration QueryStatus.success "users" _ _ _ rfl

/-- `Array.prototype.findIndex` never returns anything below `-1`. -/
lemma jsFindIndex_ge_neg_one (p : α → Bool) (l : List α) :
    -1 ≤ jsFindIndex p l := by
  induction l with
  | nil => simp [jsFindIndex]
  | cons x xs ih =>
    simp only [jsFindIndex]
    split
    · omega
    · split <;> omega

/-- The component's conversion of a JavaScript `findIndex` result (`-1`
becomes `null`, other results become indices) agrees with `List.findIdx?`. -/
lemma jsFindIndex_option (p : α → Bool) (l : List α) :
    (if jsFindIndex p l > -1 then some (jsFindIndex p l).toNat else none) =
      l.findIdx? p := by
  induction l with
  | nil => simp [jsFindIndex]
  | cons x xs ih =>
    by_cases hp : p x
    · simp [jsFindIndex, hp]
    · have hge := jsFindIndex_ge_neg_one p xs
      by_cases hz : jsFindIndex p xs = -1
      · have hnone : xs.findIdx? p = none := by
          rw [← ih]
          simp [hz]
        simp [jsFindIndex, hp, hz, List.findIdx?_cons, List.findIdx?_succ, hnone]
      · have hpos : 0 ≤ jsFindIndex p xs := by omega
        have hsome : xs.findIdx? p = some (jsFindIndex p xs).toNat := by
          rw [← ih]
          have : jsFindIndex p xs > -1 := by omega
          simp [this]
        have htn : (jsFindIndex p xs + 1).toNat = (jsFindIndex p xs).toNat + 1 := by
          omega
        have hgt : jsFindIndex p xs + 1 > -1 := by omega
        simp [jsFindIndex, hp, hz, List.findIdx?_cons, List.findIdx?_succ, hsome,
          htn, hgt]

/-- C4: on a first successful load with a non-empty normalized column list,
the hydrated form's `primaryKeyIndex` is the position of the first column
flagged primary and `identityColumnIndex` the position of the first column
flagged identity (`List.findIdx?` semantics); when no column carries the
flag, the corresponding index is null. -/
theorem hydrated_indices_first_match (nm : String)
    (cols : List NormalizedColumn) (fks : List ForeignKeyRelation)
    (st : FormState) (hinit : st.formInitialized = false)
    (hne : 0 < cols.length) :
    (hydrationEffect QueryStatus.success nm cols fks st).values.primaryKeyIndex =
      cols.findIdx? (fun c => c.isPrimary) ∧
    (hydrationEffect QueryStatus.success nm cols fks st).values.identityColumnIndex =
      cols.findIdx? (fun c => c.isIdentity) ∧
    ((∀ c ∈ cols, c.isPrimary = false) →
      (hydrationEffect QueryStatus.success nm cols fks st).values.primaryKeyIndex =
        none) ∧
    ((∀ c ∈ cols, c.isIdentity = false) →
      (hydrationEffect QueryStatus.success nm cols fks st).values.identityColumnIndex =
        none) := by
  have hstep : hydrationEffect QueryStatus.success nm cols fks st =
      { values := hydratedFormValues nm cols fks, formInitialized := true } := by
    simp [hydrationEffect, hinit, hne]
  rw [hstep]
  refine ⟨?_, ?_, ?_, ?_⟩
  · simpa [hydratedFormValues] using
      jsFindIndex_option (fun c : NormalizedColumn => c.isPrimary) cols
  · simpa [hydratedFormValues] using
      jsFindIndex_option (fun c : NormalizedColumn => c.isIdentity) cols
  · intro hall
    have : cols.findIdx? (fun c => c.isPrimary) = none :=
      List.findIdx?_eq_none_iff.mpr hall
    simpa [hydratedFormValues, this] using
      (jsFindIndex_option (fun c : NormalizedColumn => c.isPrimary) cols).trans this
  · intro hall
    have : cols.findIdx? (fun c => c.isIdentity) = none :=
      List.findIdx?_eq_none_iff.mpr hall
    simpa [hydratedFormValues, this] using
      (jsFindIndex_option (fun c : NormalizedColumn => c.isIdentity) cols).trans this

/-- Witness for C4: a two-column list whose second column alone is flagged
identity and no column is flagged primary hydrates to a null
`primaryKeyIndex` and `identityColumnIndex = 1`. -/
theorem hydrated_indices_first_match_witness :
    (hydrationEffect QueryStatus.success "books"
      [{ id := "title", type := "text", defaultValue := none, isNullable := false,
         isUnique := false, isPrimary := false, isIdentity := false },
       { id := "serial", type := "int8", defaultValue := none, isNullable := false,
         isUnique := true, isPrimary := false, isIdentity := true }] []
      { values :=
          { name := "books", columns := [], primaryKeyIndex := none,
            identityColumnIndex := none, foreignKeyRelations := [] }
        formInitialized := false }).values.primaryKeyIndex = none ∧
    (hydrationEffect QueryStatus.success "books"
      [{ id := "title", type := "text", defaultValue := none, isNullable := false,
         isUnique := false, isPrimary := false, isIdentity := false },
       { id := "serial", type := "int8", defaultValue := none, isNullable := false,
         isUnique := true, isPrimary := false, isIdentity := true }] []
      { values :=
          { name := "books", columns := [], primaryKeyIndex := none,
            identityColumnIndex := none, foreignKeyRelations := [] }
        formInitialized := false }).values.identityColumnIndex = some 1 := by
  refine ⟨(hydrated_indices_first_match "books" _ [] _ rfl (by decide)).2.2.1
    (by decide), ?_⟩
  rw [(hydrated_indices_first_match "books" _ [] _ rfl (by decide)).2.1]
  decide

/-- The `...values` spread keeps the submitted name on the payload. -/
@[simp] lemma mkUpdatedTable_name (values : BaseTableFormValues) :
    (mkUpdatedTable values).name = values.name := rfl

/-- The `...values` spread keeps the submitted relations on the payload. -/
@[simp] lemma mkUpdatedTable_foreignKeyRelations (values : BaseTableFormValues) :
    (mkUpdatedTable values).foreignKeyRelations = values.foreignKeyRelations := rfl

/-- C2: when the `updateTable` await rejects, the trace of `handleSubmit` is
exactly the single update-mutation call: the foreign-key-tracking mutation,
the completion callback, the navigation and the success toast are all
skipped, and the handler returns normally (the embedding is a total
function into traces; the `catch` block swallows the rejection). -/
theorem update_failure_aborts_sequence (env : SubmitEnv) (q : RouterQuery)
    (schema origName : String) (origCols : List NormalizedColumn)
    (origFKs : List ForeignKeyRelation) (values : BaseTableFormValues)
    (h : env.updateResult = CallResult.err) :
    handleSubmit env q schema origName origCols origFKs values =
      [SubmitEvent.updateTableCall origName origCols origFKs
        (mkUpdatedTable values)] ∧
    (handleSubmit env q schema origName origCols origFKs values).any
      isTrackCall = false ∧
    (handleSubmit env q schema origName origCols origFKs values).any
      isOnSubmitCall = false ∧
    (handleSubmit env q schema origName origCols origFKs values).any
      isRouterPush = false ∧
    (handleSubmit env q schema origName origCols origFKs values).any
      isToast = false := by
  have htrace : handleSubmit env q schema origName origCols origFKs values =
      [SubmitEvent.updateTableCall origName origCols origFKs
        (mkUpdatedTable values)] := by
    simp [handleSubmit, h]
  refine ⟨htrace, ?_, ?_, ?_, ?_⟩ <;>
    simp [htrace, isTrackCall, isOnSubmitCall, isRouterPush, isToast]

/-- Witness for C2: a concrete run whose update mutation rejects performs
only the update call. -/
theorem update_failure_aborts_sequence_witness :
    handleSubmit
      { updateResult := CallResult.err, trackResult := CallResult.ok,
        onSubmitProvided := true, onSubmitResult := CallResult.ok,
        routerPushResult := CallResult.ok }
      { workspaceSlug := "w", appSlug := "a", dataSourceSlug := "d" }
      "public" "users" [] []
      { name := "accounts", columns := [], primaryKeyIndex := none,
        identityColumnIndex := none,
        foreignKeyRelations :=
          [{ columnName := "user_id", referencedSchema := "public",
             referencedTable := "users", referencedColumn := "id" }] } =
      [SubmitEvent.updateTableCall "users" [] []
        (mkUpdatedTable
          { name := "accounts", columns := [], primaryKeyIndex := none,
            identityColumnIndex := none,
            foreignKeyRelations :=
              [{ columnName := "user_id", referencedSchema := "public",
                 referencedTable := "users", referencedColumn := "id" }] })] :=
  (update_failure_aborts_sequence _ _ "public" "users" [] [] _ rfl).1

/-- C8: the payload handed to the update mutation is the derived
`UpdatedTable`, whose `primaryKey`/`identityColumn` fields are column names
resolved from the form's indices: a null index yields an absent name, an
in-bounds index yields the addressed column's `name`, and whenever the field
is present its value is the name of some column of the form — never a raw
index. -/
theorem updated_table_carries_column_names (env : SubmitEnv) (q : RouterQuery)
    (schema origName : String) (origCols : List NormalizedColumn)
    (origFKs : List ForeignKeyRelation) (values : BaseTableFormValues) :
    (handleSubmit env q schema origName origCols origFKs values).head? =
      some (SubmitEvent.updateTableCall origName origCols origFKs
        (mkUpdatedTable values)) ∧
    (values.primaryKeyIndex = none → (mkUpdatedTable values).primaryKey = none) ∧
    (∀ i c, values.primaryKeyIndex = some i → values.columns[i]? = some c →
      (mkUpdatedTable values).primaryKey = some c.name) ∧
    (values.identityColumnIndex = none →
      (mkUpdatedTable values).identityColumn = none) ∧
    (∀ i c, values.identityColumnIndex = some i → values.columns[i]? = some c →
      (mkUpdatedTable values).identityColumn = some c.name) ∧
    ((mkUpdatedTable values).primaryKey = none ∨
      ∃ c ∈ values.columns, (mkUpdatedTable values).primaryKey = some c.name) ∧
    ((mkUpdatedTable values).identityColumn = none ∨
      ∃ c ∈ values.columns, (mkUpdatedTable values).identityColumn = some c.name) := by
  refine ⟨by simp [handleSubmit], ?_, ?_, ?_, ?_, ?_, ?_⟩
  · intro h
    simp [mkUpdatedTable, h]
  · intro i c hi hc
    simp [mkUpdatedTable, hi, hc]
  · intro h
    simp [mkUpdatedTable, h]
  · intro i c hi hc
    simp [mkUpdatedTable, hi, hc]
  · cases hpk : values.primaryKeyIndex with
    | none => exact Or.inl (by simp [mkUpdatedTable, hpk])
    | some i =>
      cases hg : values.columns[i]? with
      | none => exact Or.inl (by simp [mkUpdatedTable, hpk, hg])
      | some c =>
        exact Or.inr ⟨c, List.getElem?_mem hg, by simp [mkUpdatedTable, hpk, hg]⟩
  · cases hid : values.identityColumnIndex with
    | none => exact Or.inl (by simp [mkUpdatedTable, hid])
    | some i =>
      cases hg : values.columns[i]? with
      | none => exact Or.inl (by simp [mkUpdatedTable, hid, hg])
      | some c =>
        exact Or.inr ⟨c, List.getElem?_mem hg, by simp [mkUpdatedTable, hid, hg]⟩

/-- Witness for C8: with a one-column list and both indices pointing at it,
the derived payload carries that column's name in both fields. -/
theorem updated_table_carries_column_names_witness :
    (mkUpdatedTable
      { name := "t", columns :=
          [{ id := "id", name := "id", type := "int4", defaultValue := none,
             isNullable := false, isUnique := true }],
        primaryKeyIndex := some 0, identityColumnIndex := some 0,
        foreignKeyRelations := [] }).primaryKey = some "id" ∧
    (mkUpdatedTable
      { name := "t", columns :=
          [{ id := "id", name := "id", type := "int4", defaultValue := none,
             isNullable := false, isUnique := true }],
        primaryKeyIndex := some 0, identityColumnIndex := some 0,
        foreignKeyRelations := [] }).identityColumn = some "id" :=
  ⟨(updated_table_carries_column_names
      { updateResult := CallResult.ok, trackResult := CallResult.ok,
        onSubmitProvided := false, onSubmitResult := CallResult.ok,
        routerPushResult := CallResult.ok }
      { workspaceSlug := "w", appSlug := "a", dataSourceSlug := "d" }
      "public" "t" [] [] _).2.2.1 0
      { id := "id", name := "id", type := "int4", defaultValue := none,
        isNullable := false, isUnique := true } rfl rfl,
   (updated_table_carries_column_names
      { updateResult := CallResult.ok, trackResult := CallResult.ok,
        onSubmitProvided := false, onSubmitResult := CallResult.ok,
        routerPushResult := CallResult.ok }
      { workspaceSlug := "w", appSlug := "a", dataSourceSlug := "d" }
      "public" "t" [] [] _).2.2.2.2.1 0
      { id := "id", name := "id", type := "int4", defaultValue := none,
        isNullable := false, isUnique := true } rfl rfl⟩

/-- C10: the derivation of the payload is total in the index fields: a null
or out-of-bounds `primaryKeyIndex` yields an absent `primaryKey`, an
out-of-bounds `identityColumnIndex` yields an absent `identityColumn`, and
the handler still proceeds to the update mutation (the trace starts with the
update call) in every such case. -/
theorem derivation_total_out_of_bounds (env : SubmitEnv) (q : RouterQuery)
    (schema origName : String) (origCols : List NormalizedColumn)
    (origFKs : List ForeignKeyRelation) (values : BaseTableFormValues) :
    (values.primaryKeyIndex = none → (mkUpdatedTable values).primaryKey = none) ∧
    (∀ i, values.primaryKeyIndex = some i → values.columns.length ≤ i →
      (mkUpdatedTable values).primaryKey = none) ∧
    (∀ i, values.identityColumnIndex = some i → values.columns.length ≤ i →
      (mkUpdatedTable values).identityColumn = none) ∧
    (handleSubmit env q schema origName origCols origFKs values).head? =
      some (SubmitEvent.updateTableCall origName origCols origFKs
        (mkUpdatedTable values)) := by
  refine ⟨?_, ?_, ?_, by simp [handleSubmit]⟩
  · intro h
    simp [mkUpdatedTable, h]
  · intro i hi hlen
    simp [mkUpdatedTable, hi, List.getElem?_eq_none hlen]
  · intro i hi hlen
    simp [mkUpdatedTable, hi, List.getElem?_eq_none hlen]

/-- Witness for C10: an out-of-bounds primary-key index and a null identity
index still produce a payload with both names absent, and the update call is
still made. -/
theorem derivation_total_out_of_bounds_witness :
    (mkUpdatedTable
      { name := "t", columns := [], primaryKeyIndex := some 5,
        identityColumnIndex := some 7, foreignKeyRelations := [] }).primaryKey =
      none ∧
    (mkUpdatedTable
      { name := "t", columns := [], primaryKeyIndex := some 5,
        identityColumnIndex := some 7, foreignKeyRelations := [] }).identityColumn =
      none ∧
    (handleSubmit
      { updateResult := CallResult.ok, trackResult := CallResult.ok,
        onSubmitProvided := false, onSubmitResult := CallResult.ok,
        routerPushResult := CallResult.ok }
      { workspaceSlug := "w", appSlug := "a", dataSourceSlug := "d" }
      "public" "t" [] []
      { name := "t", columns := [], primaryKeyIndex := some 5,
        identityColumnIndex := some 7, foreignKeyRelations := [] }).head? =
      some (SubmitEvent.updateTableCall "t" [] []
        (mkUpdatedTable
          { name := "t", columns := [], primaryKeyIndex := some 5,
            identityColumnIndex := some 7, foreignKeyRelations := [] })) := by
  refine ⟨?_, ?_, ?_⟩
  · exact (derivation_total_out_of_bounds
      { updateResult := CallResult.ok, trackResult := CallResult.ok,
        onSubmitProvided := false, onSubmitResult := CallResult.ok,
        routerPushResult := CallResult.ok }
      { workspaceSlug := "w", appSlug := "a", dataSourceSlug := "d" }
      "public" "t" [] [] _).2.1 5 rfl (by decide)
  · exact (derivation_total_out_of_bounds
      { updateResult := CallResult.ok, trackResult := CallResult.ok,
        onSubmitProvided := false, onSubmitResult := CallResult.ok,
        routerPushResult := CallResult.ok }
      { workspaceSlug := "w", appSlug := "a", dataSourceSlug := "d" }
      "public" "t" [] [] _).2.2.1 7 rfl (by decide)
  · exact (derivation_total_out_of_bounds
      { updateResult := CallResult.ok, trackResult := CallResult.ok,
        onSubmitProvided := false, onSubmitResult := CallResult.ok,
        routerPushResult := CallResult.ok }
      { workspaceSlug := "w", appSlug := "a", dataSourceSlug := "d" }
      "public" "t" [] [] _).2.2.2

/-- C5: the foreign-key-tracking mutation is never invoked when the
submitted relation list is empty; when it is non-empty and the update
mutation succeeded, it is invoked exactly once, with the relations, the
schema and the updated table's name. -/
theorem track_call_iff_relations_nonempty (env : SubmitEnv) (q : RouterQuery)
    (schema origName : String) (origCols : List NormalizedColumn)
    (origFKs : List ForeignKeyRelation) (values : BaseTableFormValues) :
    (values.foreignKeyRelations = [] →
      (handleSubmit env q schema origName origCols origFKs values).filter
        isTrackCall = []) ∧
    (env.updateResult = CallResult.ok → values.foreignKeyRelations ≠ [] →
      (handleSubmit env q schema origName origCols origFKs values).filter
        isTrackCall =
        [SubmitEvent.trackForeignKeysCall values.foreignKeyRelations schema
          values.name]) := by
  rcases env with ⟨u, t, p, o, r⟩
  constructor
  · intro hfk
    cases u <;> cases t <;> cases p <;> cases o <;> cases r <;>
      by_cases hn : origName = values.name <;>
        simp [handleSubmit, afterUpdate, trackStep, onSubmitStep, navigateStep,
          isTrackCall, hfk, hn]
  · intro hu hfk
    have hlen : 0 < values.foreignKeyRelations.length := List.length_pos.mpr hfk
    cases u with
    | err => simp at hu
    | ok =>
      cases t <;> cases p <;> cases o <;> cases r <;>
        by_cases hn : origName = values.name <;>
          simp [handleSubmit, afterUpdate, trackStep, onSubmitStep, navigateStep,
            isTrackCall, hlen, hn]

/-- Witness for C5: a submission with one relation and a successful update
performs exactly one tracking call, carrying the relation, the schema and
the submitted name. -/
theorem track_call_iff_relations_nonempty_witness :
    (handleSubmit
      { updateResult := CallResult.ok, trackResult := CallResult.ok,
        onSubmitProvided := false, onSubmitResult := CallResult.ok,
        routerPushResult := CallResult.ok }
      { workspaceSlug := "w", appSlug := "a", dataSourceSlug := "d" }
      "public" "users" [] []
      { name := "users", columns := [], primaryKeyIndex := none,
        identityColumnIndex := none,
        foreignKeyRelations :=
          [{ columnName := "org_id", referencedSchema := "public",
             referencedTable := "orgs", referencedColumn := "id" }] }).filter
      isTrackCall =
      [SubmitEvent.trackForeignKeysCall
        [{ columnName := "org_id", referencedSchema := "public",
           referencedTable := "orgs", referencedColumn := "id" }]
        "public" "users"] :=
  (track_call_iff_relations_nonempty
    { updateResult := CallResult.ok, trackResult := CallResult.ok,
      onSubmitProvided := false, onSubmitResult := CallResult.ok,
      routerPushResult := CallResult.ok }
    { workspaceSlug := "w", appSlug := "a", dataSourceSlug := "d" }
    "public" "users" [] []
    { name := "users", columns := [], primaryKeyIndex := none,
      identityColumnIndex := none,
      foreignKeyRelations :=
        [{ columnName := "org_id", referencedSchema := "public",
           referencedTable := "orgs", referencedColumn := "id" }] }).2
    rfl (by decide)

/-- C6: when the update, tracking and completion-callback steps all succeed,
a navigation call occurs exactly when the submitted name differs from the
original table name, its target is the browser path built from the router
query, the schema and the new name, and that path contains the new name as
a suffix; an unchanged name produces no navigation call. -/
theorem navigation_iff_name_changed (env : SubmitEnv) (q : RouterQuery)
    (schema origName : String) (origCols : List NormalizedColumn)
    (origFKs : List ForeignKeyRelation) (values : BaseTableFormValues)
    (hu : env.updateResult = CallResult.ok)
    (ht : env.trackResult = CallResult.ok)
    (ho : env.onSubmitResult = CallResult.ok) :
    (origName = values.name →
      (handleSubmit env q schema origName origCols origFKs values).filter
        isRouterPush = []) ∧
    (origName ≠ values.name →
      (handleSubmit env q schema origName origCols origFKs values).filter
        isRouterPush =
        [SubmitEvent.routerPush (navPath q schema values.name)] ∧
      ∃ pre, navPath q schema values.name = pre ++ values.name) := by
  rcases env with ⟨u, t, p, o, r⟩
  cases u with
  | err => simp at hu
  | ok =>
    cases t with
    | err => simp at ht
    | ok =>
      cases o with
      | err => simp at ho
      | ok =>
        constructor
        · intro hn
          cases p <;> cases r <;>
            by_cases hfk : 0 < values.foreignKeyRelations.length <;>
              simp [handleSubmit, afterUpdate, trackStep, onSubmitStep,
                navigateStep, isRouterPush, hn, hfk]
        · intro hn
          refine ⟨?_, "/" ++ q.workspaceSlug ++ "/" ++ q.appSlug ++
            "/database/browser/" ++ q.dataSourceSlug ++ "/" ++ schema ++ "/",
            rfl⟩
          cases p <;> cases r <;>
            by_cases hfk : 0 < values.foreignKeyRelations.length <;>
              simp [handleSubmit, afterUpdate, trackStep, onSubmitStep,
                navigateStep, isRouterPush, hn, hfk]

/-- Witness for C6: a fully successful submission with a changed name
performs exactly one navigation call, to the path built from the new name;
the same theorem's first part shows an unchanged name yields none. -/
theorem navigation_iff_name_changed_witness :
    (handleSubmit
      { updateResult := CallResult.ok, trackResult := CallResult.ok,
        onSubmitProvided := true, onSubmitResult := CallResult.ok,
        routerPushResult := CallResult.ok }
      { workspaceSlug := "w", appSlug := "a", dataSourceSlug := "d" }
      "public" "users" [] []
      { name := "accounts", columns := [], primaryKeyIndex := none,
        identityColumnIndex := none, foreignKeyRelations := [] }).filter
      isRouterPush =
      [SubmitEvent.routerPush
        (navPath { workspaceSlug := "w", appSlug := "a", dataSourceSlug := "d" }
          "public" "accounts")] ∧
    (handleSubmit
      { updateResult := CallResult.ok, trackResult := CallResult.ok,
        onSubmitProvided := true, onSubmitResult := CallResult.ok,
        routerPushResult := CallResult.ok }
      { workspaceSlug := "w", appSlug := "a", dataSourceSlug := "d" }
      "public" "users" [] []
      { name := "users", columns := [], primaryKeyIndex := none,
        identityColumnIndex := none, foreignKeyRelations := [] }).filter
      isRouterPush = [] :=
  ⟨((navigation_iff_name_changed
      { updateResult := CallResult.ok, trackResult := CallResult.ok,
        onSubmitProvided := true, onSubmitResult := CallResult.ok,
        routerPushResult := CallResult.ok }
      { workspaceSlug := "w", appSlug := "a", dataSourceSlug := "d" }
      "public" "users" [] []
      { name := "accounts", columns := [], primaryKeyIndex := none,
        identityColumnIndex := none, foreignKeyRelations := [] }
      rfl rfl rfl).2 (by decide)).1,
   (navigation_iff_name_changed
      { updateResult := CallResult.ok, trackResult := CallResult.ok,
        onSubmitProvided := true, onSubmitResult := CallResult.ok,
        routerPushResult := CallResult.ok }
      { workspaceSlug := "w", appSlug := "a", dataSourceSlug := "d" }
      "public" "users" [] []
      { name := "users", columns := [], primaryKeyIndex := none,
        identityColumnIndex := none, foreignKeyRelations := [] }
      rfl rfl rfl).1 rfl⟩

end EditTableForm

namespace SystemEnvironmentVariableSettings

/-- C9: toggling either secret-visibility flag twice returns the state — and
hence the displayed text — to its original value; each toggle is pure
negation of its own flag and leaves the other flag unchanged. -/
theorem toggle_involution (s : SecretVisibilityState)
    (adminSecret webhookSecret : String) :
    toggleAdminSecret (toggleAdminSecret s) = s ∧
    toggleWebhookSecret (toggleWebhookSecret s) = s ∧
    adminSecretText (toggleAdminSecret (toggleAdminSecret s)) adminSecret =
      adminSecretText s adminSecret ∧
    webhookSecretText (toggleWebhookSecret (toggleWebhookSecret s)) webhookSecret =
      webhookSecretText s webhookSecret ∧
    (toggleAdminSecret s).showAdminSecret = !s.showAdminSecret ∧
    (toggleAdminSecret s).showWebhookSecret = s.showWebhookSecret ∧
    (toggleWebhookSecret s).showWebhookSecret = !s.showWebhookSecret ∧
    (toggleWebhookSecret s).showAdminSecret = s.showAdminSecret := by
  refine ⟨?_, ?_, ?_, ?_, rfl, rfl, rfl, rfl⟩ <;>
    simp [toggleAdminSecret, toggleWebhookSecret]

end SystemEnvironmentVariableSettings
